/- CourseX verification development.

   Shallow embedding of:
   - the relational schema `scripts/database/tables.sql` (row shapes, NOT NULL
     and ENUM column constraints, primary and unique keys, foreign keys);
   - the ETL staging/validation/promotion pipeline (the ETL script itself is
     not part of the checked sources, so those parts are modelled from the
     specification, as marked on each definition);
   - the enrollment filter `app/composables/filters/enrollment.ts`;
   - the schedule store `app/stores/schedule.ts` (with the identifier
     normalizers of `utils/normalize` modelled from the specification).

   SQL NULL-able columns are `Option` fields; NOT NULL columns are plain
   fields.  `VARCHAR(n)` adds a length bound, `ENUM(...)` a membership check.
   Tables are lists of rows; key and foreign-key constraints are Boolean
   checks over those lists.  Timestamps are `Nat` (seconds since epoch); the
   DECIMAL rating columns are scaled integers (hundredths). -/
import Mathlib

namespace CourseX

/-- Boolean check that all elements of a list are pairwise distinct; used to
model PRIMARY KEY and UNIQUE KEY constraints over the list of key values. -/
def allDistinct {α : Type} [DecidableEq α] : List α → Bool
  | [] => true
  | a :: t => !(t.contains a) && allDistinct t

/-- `tables.sql` table `semesters`. -/
structure SemesterRow where
  semester_id : Int
  semester_name : String
  year : Int
  term : String
  is_active : Bool
  created_at : Nat
  deriving Repr, DecidableEq

/-- `tables.sql` table `schools`. -/
structure SchoolRow where
  school_id : String
  school_name : String
  created_at : Nat
  updated_at : Nat
  deriving Repr, DecidableEq

/-- `tables.sql` table `programs`. -/
structure ProgramRow where
  school_id : String
  program_id : String
  program_name : String
  created_at : Nat
  updated_at : Nat
  deriving Repr, DecidableEq

/-- `tables.sql` table `professors` (global, not semester-scoped). -/
structure ProfessorRow where
  professor_name : String
  rmp_id : Option Int
  difficulty : Option Int
  rating : Option Int
  rating_count : Option Int
  take_again_percentage : Option Int
  created_at : Nat
  updated_at : Nat
  deriving Repr, DecidableEq

/-- `tables.sql` table `courses`. -/
structure CourseRow where
  semester_id : Int
  course_id : String
  program_id : String
  course_number : Int
  title : String
  description : Option String
  created_at : Nat
  updated_at : Nat
  deriving Repr, DecidableEq

/-- `tables.sql` table `sections`. -/
structure SectionRow where
  semester_id : Int
  section_id : Int
  course_id : String
  section_type : String
  units : String
  total_seats : Int
  registered_seats : Int
  location : Option String
  time_schedule : Option String
  d_clearance_required : Bool
  created_at : Nat
  updated_at : Nat
  deriving Repr, DecidableEq

/-- `tables.sql` table `section_instructors`. -/
structure SectionInstructorRow where
  semester_id : Int
  section_id : Int
  professor_name : String
  updated_at : Nat
  deriving Repr, DecidableEq

/-- `tables.sql` table `course_ge_categories`. -/
structure CourseGECategoryRow where
  semester_id : Int
  course_id : String
  ge_category : String
  updated_at : Nat
  deriving Repr, DecidableEq

/-- `tables.sql` table `section_prerequisites`. -/
structure SectionPrerequisiteRow where
  semester_id : Int
  section_id : Int
  prerequisite_text : String
  updated_at : Nat
  deriving Repr, DecidableEq

/-- `tables.sql` table `section_duplicated_credits`. -/
structure SectionDuplicatedCreditRow where
  semester_id : Int
  section_id : Int
  duplicated_text : String
  updated_at : Nat
  deriving Repr, DecidableEq

/-- `tables.sql` table `etl_runs`.  `finished_at` is declared `TIMESTAMP NULL`,
`semester_id`, `error` and `counts` are NULL-able; `status` is
`ENUM('success','failure') NOT NULL`.  The JSON `counts` column is modelled as
an association list from entity kind to count. -/
structure EtlRunRow where
  run_id : Int
  semester_id : Option Int
  started_at : Nat
  finished_at : Option Nat
  status : String
  error : Option String
  counts : Option (List (String × Nat))
  deriving Repr, DecidableEq

/-- The values of `sections.section_type ENUM('Lecture', 'Discussion', 'Lab',
'Quiz', 'Studio', 'Other')`. -/
def sectionTypeEnum : List String :=
  ["Lecture", "Discussion", "Lab", "Quiz", "Studio", "Other"]

/-- The values of `course_ge_categories.ge_category ENUM('A',...,'H')`. -/
def geCategoryEnum : List String :=
  ["A", "B", "C", "D", "E", "F", "G", "H"]

/-- Per-row column constraints of `semesters`. -/
def semesterRowOk (r : SemesterRow) : Bool :=
  r.semester_name.length ≤ 50 && r.term.length ≤ 20

/-- Per-row column constraints of `schools`. -/
def schoolRowOk (r : SchoolRow) : Bool :=
  r.school_id.length ≤ 4 && r.school_name.length ≤ 128

/-- Per-row column constraints of `programs`. -/
def programRowOk (r : ProgramRow) : Bool :=
  r.school_id.length ≤ 4 && r.program_id.length ≤ 4 && r.program_name.length ≤ 128

/-- Per-row column constraints of `professors`. -/
def professorRowOk (r : ProfessorRow) : Bool :=
  r.professor_name.length ≤ 128

/-- Per-row column constraints of `courses`. -/
def courseRowOk (r : CourseRow) : Bool :=
  r.course_id.length ≤ 16 && r.program_id.length ≤ 4 && r.title.length ≤ 256

/-- Per-row column constraints of `sections`: the `section_type` ENUM, and the
VARCHAR length bounds.  Note there is no constraint relating
`registered_seats` to `total_seats`. -/
def sectionRowOk (r : SectionRow) : Bool :=
  sectionTypeEnum.contains r.section_type
    && r.course_id.length ≤ 16
    && r.units.length ≤ 16
    && (r.location.getD "").length ≤ 64
    && (r.time_schedule.getD "").length ≤ 64

/-- Per-row column constraints of `section_instructors`. -/
def sectionInstructorRowOk (r : SectionInstructorRow) : Bool :=
  r.professor_name.length ≤ 128

/-- Per-row column constraints of `course_ge_categories`: the ge ENUM. -/
def courseGECategoryRowOk (r : CourseGECategoryRow) : Bool :=
  geCategoryEnum.contains r.ge_category && r.course_id.length ≤ 16

/-- Per-row column constraints of `section_prerequisites`. -/
def sectionPrerequisiteRowOk (r : SectionPrerequisiteRow) : Bool :=
  r.prerequisite_text.length ≤ 128

/-- Per-row column constraints of `section_duplicated_credits`. -/
def sectionDuplicatedCreditRowOk (r : SectionDuplicatedCreditRow) : Bool :=
  r.duplicated_text.length ≤ 128

/-- Per-row column constraints of `etl_runs`: the `status` ENUM.  There is no
constraint on `finished_at`, which may be NULL (`none`), so a
created-but-not-finalized row is representable. -/
def etlRunRowOk (r : EtlRunRow) : Bool :=
  (r.status == "success" || r.status == "failure")
    && (r.error.getD "").length ≤ 65535

/-- Single-table state of `semesters`: row constraints plus the
`semester_id` PRIMARY KEY.  Note that nothing here constrains how many rows
have `is_active = true`. -/
def semestersTableOk (rows : List SemesterRow) : Bool :=
  rows.all semesterRowOk && allDistinct (rows.map (fun r => r.semester_id))

/-- Single-table state of `schools` (PRIMARY KEY `school_id`). -/
def schoolsTableOk (rows : List SchoolRow) : Bool :=
  rows.all schoolRowOk && allDistinct (rows.map (fun r => r.school_id))

/-- Single-table state of `programs` (PRIMARY KEY `program_id`). -/
def programsTableOk (rows : List ProgramRow) : Bool :=
  rows.all programRowOk && allDistinct (rows.map (fun r => r.program_id))

/-- Single-table state of `professors` (PRIMARY KEY `professor_name`). -/
def professorsTableOk (rows : List ProfessorRow) : Bool :=
  rows.all professorRowOk && allDistinct (rows.map (fun r => r.professor_name))

/-- Single-table state of `courses` (PRIMARY KEY `(semester_id, course_id)`). -/
def coursesTableOk (rows : List CourseRow) : Bool :=
  rows.all courseRowOk
    && allDistinct (rows.map (fun r => (r.semester_id, r.course_id)))

/-- Single-table state of `sections` (PRIMARY KEY `(semester_id, section_id)`). -/
def sectionsTableOk (rows : List SectionRow) : Bool :=
  rows.all sectionRowOk
    && allDistinct (rows.map (fun r => (r.semester_id, r.section_id)))

/-- Single-table state of `section_instructors`
(UNIQUE KEY `(semester_id, section_id, professor_name)`). -/
def sectionInstructorsTableOk (rows : List SectionInstructorRow) : Bool :=
  rows.all sectionInstructorRowOk
    && allDistinct (rows.map (fun r => (r.semester_id, r.section_id, r.professor_name)))

/-- Single-table state of `course_ge_categories`
(UNIQUE KEY `(semester_id, course_id, ge_category)`). -/
def courseGECategoriesTableOk (rows : List CourseGECategoryRow) : Bool :=
  rows.all courseGECategoryRowOk
    && allDistinct (rows.map (fun r => (r.semester_id, r.course_id, r.ge_category)))

/-- Single-table state of `section_prerequisites`
(UNIQUE KEY `(semester_id, section_id, prerequisite_text)`). -/
def sectionPrerequisitesTableOk (rows : List SectionPrerequisiteRow) : Bool :=
  rows.all sectionPrerequisiteRowOk
    && allDistinct (rows.map (fun r => (r.semester_id, r.section_id, r.prerequisite_text)))

/-- Single-table state of `section_duplicated_credits`
(UNIQUE KEY `(semester_id, section_id, duplicated_text)`). -/
def sectionDuplicatedCreditsTableOk (rows : List SectionDuplicatedCreditRow) : Bool :=
  rows.all sectionDuplicatedCreditRowOk
    && allDistinct (rows.map (fun r => (r.semester_id, r.section_id, r.duplicated_text)))

/-- Single-table state of `etl_runs` (PRIMARY KEY `run_id`). -/
def etlRunsTableOk (rows : List EtlRunRow) : Bool :=
  rows.all etlRunRowOk && allDistinct (rows.map (fun r => r.run_id))

/-- The production database state: one list of rows per table of
`tables.sql`. -/
structure Database where
  semesters : List SemesterRow
  schools : List SchoolRow
  programs : List ProgramRow
  professors : List ProfessorRow
  courses : List CourseRow
  sections : List SectionRow
  section_instructors : List SectionInstructorRow
  course_ge_categories : List CourseGECategoryRow
  section_prerequisites : List SectionPrerequisiteRow
  section_duplicated_credits : List SectionDuplicatedCreditRow
  etl_runs : List EtlRunRow
  deriving Repr

/-- All FOREIGN KEY constraints of `tables.sql`, as cross-table checks.
`etl_runs.semester_id` carries no foreign key, only an index. -/
def foreignKeysOk (db : Database) : Bool :=
  db.programs.all (fun p => db.schools.any (fun s => s.school_id == p.school_id))
    && db.courses.all (fun c =>
        db.semesters.any (fun s => s.semester_id == c.semester_id)
          && db.programs.any (fun p => p.program_id == c.program_id))
    && db.sections.all (fun s =>
        db.courses.any (fun c =>
            c.semester_id == s.semester_id && c.course_id == s.course_id)
          && db.semesters.any (fun sm => sm.semester_id == s.semester_id))
    && db.section_instructors.all (fun i =>
        db.sections.any (fun s =>
            s.semester_id == i.semester_id && s.section_id == i.section_id)
          && db.professors.any (fun p => p.professor_name == i.professor_name))
    && db.course_ge_categories.all (fun g =>
        db.courses.any (fun c =>
            c.semester_id == g.semester_id && c.course_id == g.course_id))
    && db.section_prerequisites.all (fun q =>
        db.sections.any (fun s =>
            s.semester_id == q.semester_id && s.section_id == q.section_id))
    && db.section_duplicated_credits.all (fun d =>
        db.sections.any (fun s =>
            s.semester_id == d.semester_id && s.section_id == d.section_id))

/-- A database state admissible under the full schema of `tables.sql`:
every table satisfies its row, key and uniqueness constraints, and every
foreign key resolves. -/
def dbOk (db : Database) : Bool :=
  semestersTableOk db.semesters
    && schoolsTableOk db.schools
    && programsTableOk db.programs
    && professorsTableOk db.professors
    && coursesTableOk db.courses
    && sectionsTableOk db.sections
    && sectionInstructorsTableOk db.section_instructors
    && courseGECategoriesTableOk db.course_ge_categories
    && sectionPrerequisitesTableOk db.section_prerequisites
    && sectionDuplicatedCreditsTableOk db.section_duplicated_credits
    && etlRunsTableOk db.etl_runs
    && foreignKeysOk db

/-- The staging tables created by `CREATE TABLE staging_* LIKE *` in
`tables.sql`: schema mirrors of the corresponding production tables,
holding the current run's candidate batch. -/
structure Staging where
  courses : List CourseRow
  sections : List SectionRow
  section_instructors : List SectionInstructorRow
  course_ge_categories : List CourseGECategoryRow
  section_prerequisites : List SectionPrerequisiteRow
  section_duplicated_credits : List SectionDuplicatedCreditRow
  schools : List SchoolRow
  programs : List ProgramRow
  professors : List ProfessorRow
  deriving Repr

/-- Modelled from the spec: an Integrity Validator violation, naming the
violated rule and the offending key (the ETL script `scripts/etl_tidb.py`
is not among the checked sources). -/
structure Violation where
  rule : String
  key : String
  deriving Repr, DecidableEq

/-- Modelled from the spec: validator check 1, "no orphan sections" — every
`(semester, course_id)` referenced by a staging section row must exist in
staging courses for the same semester. -/
def checkNoOrphanSections (stg : Staging) : List Violation :=
  (stg.sections.filter (fun s =>
      !(stg.courses.any (fun c =>
          c.semester_id == s.semester_id && c.course_id == s.course_id)))).map
    (fun s => { rule := "no-orphan-sections", key := s.course_id })

/-- Modelled from the spec: validator check 2, "no orphan courses" — every
course's `program_id` must exist in staging or production programs. -/
def checkNoOrphanCourses (stg : Staging) (prodPrograms : List ProgramRow) : List Violation :=
  (stg.courses.filter (fun c =>
      !(stg.programs.any (fun p => p.program_id == c.program_id)
          || prodPrograms.any (fun p => p.program_id == c.program_id)))).map
    (fun c => { rule := "no-orphan-courses", key := c.course_id })

/-- Modelled from the spec: validator check 3, "no orphan junctions" — every
junction and annotation row must reference an existing staging section or
course. -/
def checkNoOrphanJunctions (stg : Staging) : List Violation :=
  ((stg.section_instructors.filter (fun i =>
      !(stg.sections.any (fun s =>
          s.semester_id == i.semester_id && s.section_id == i.section_id)))).map
    (fun i => { rule := "no-orphan-junctions", key := toString i.section_id }))
  ++ ((stg.course_ge_categories.filter (fun g =>
      !(stg.courses.any (fun c =>
          c.semester_id == g.semester_id && c.course_id == g.course_id)))).map
    (fun g => { rule := "no-orphan-junctions", key := g.course_id }))
  ++ ((stg.section_prerequisites.filter (fun q =>
      !(stg.sections.any (fun s =>
          s.semester_id == q.semester_id && s.section_id == q.section_id)))).map
    (fun q => { rule := "no-orphan-junctions", key := toString q.section_id }))
  ++ ((stg.section_duplicated_credits.filter (fun d =>
      !(stg.sections.any (fun s =>
          s.semester_id == d.semester_id && s.section_id == d.section_id)))).map
    (fun d => { rule := "no-orphan-junctions", key := toString d.section_id }))

/-- Modelled from the spec: validator check 4, professor referential
consistency — every `professor_name` referenced by a staging
`section_instructors` row must exist in the staging or production professor
table. -/
def checkProfessorRefs (stg : Staging) (prodProfessors : List ProfessorRow) : List Violation :=
  (stg.section_instructors.filter (fun i =>
      !(stg.professors.any (fun p => p.professor_name == i.professor_name)
          || prodProfessors.any (fun p => p.professor_name == i.professor_name)))).map
    (fun i => { rule := "professor-referential-consistency", key := i.professor_name })

/-- Modelled from the spec: validator check 5, non-empty semester — staging
must contain at least one course and one section. -/
def checkNonEmptySemester (stg : Staging) : List Violation :=
  (if stg.courses.isEmpty then
      [{ rule := "non-empty-semester", key := "courses" }] else [])
  ++ (if stg.sections.isEmpty then
      [{ rule := "non-empty-semester", key := "sections" }] else [])

/-- Modelled from the spec: the Integrity Validator — the fixed battery of
checks 1-5 over staging contents, returning the concatenated violation
list (empty means "pass"). -/
def validateStaging (stg : Staging) (prodPrograms : List ProgramRow)
    (prodProfessors : List ProfessorRow) : List Violation :=
  checkNoOrphanSections stg
    ++ checkNoOrphanCourses stg prodPrograms
    ++ checkNoOrphanJunctions stg
    ++ checkProfessorRefs stg prodProfessors
    ++ checkNonEmptySemester stg

/-- Modelled from the spec: upsert of the globally-keyed professor rows
(professors are not semester-scoped; each staging row replaces the
production row with the same `professor_name`, new names are appended). -/
def upsertProfessors (prod : List ProfessorRow) (stgRows : List ProfessorRow) :
    List ProfessorRow :=
  prod.map (fun p =>
      match stgRows.find? (fun q => q.professor_name == p.professor_name) with
      | some q => q
      | none => p)
    ++ stgRows.filter (fun q =>
        !(prod.any (fun p => p.professor_name == q.professor_name)))

/-- Modelled from the spec: the promotion-adjacent "activate semester"
update — clear the previous `is_active` flag and set the new one, inside
the promotion transaction. -/
def activateSemesters (rows : List SemesterRow) (sem : Int) : List SemesterRow :=
  rows.map (fun r => { r with is_active := r.semester_id == sem })

/-- Modelled from the spec: the Promoter's delete-then-reinsert, scoped to
the target semester's rows, across courses, sections and all
junction/annotation tables; professor rows are upserted globally when the
professor-refresh stage ran; the new semester is activated in the same
transaction. -/
def promoteSemester (db : Database) (stg : Staging) (sem : Int)
    (updateProfessors : Bool) : Database :=
  { db with
    semesters := activateSemesters db.semesters sem
    courses := db.courses.filter (fun r => !(r.semester_id == sem))
      ++ stg.courses.filter (fun r => r.semester_id == sem)
    sections := db.sections.filter (fun r => !(r.semester_id == sem))
      ++ stg.sections.filter (fun r => r.semester_id == sem)
    section_instructors := db.section_instructors.filter (fun r => !(r.semester_id == sem))
      ++ stg.section_instructors.filter (fun r => r.semester_id == sem)
    course_ge_categories := db.course_ge_categories.filter (fun r => !(r.semester_id == sem))
      ++ stg.course_ge_categories.filter (fun r => r.semester_id == sem)
    section_prerequisites := db.section_prerequisites.filter (fun r => !(r.semester_id == sem))
      ++ stg.section_prerequisites.filter (fun r => r.semester_id == sem)
    section_duplicated_credits :=
      db.section_duplicated_credits.filter (fun r => !(r.semester_id == sem))
      ++ stg.section_duplicated_credits.filter (fun r => r.semester_id == sem)
    professors :=
      if updateProfessors then upsertProfessors db.professors stg.professors
      else db.professors }

/-- A single SQL statement of the promotion transaction: a fallible state
transformer (`none` models a statement error). -/
def Stmt : Type := Database → Option Database

/-- Execute the statements of a transaction in order; `none` as soon as any
statement fails. -/
def execStmts : List Stmt → Database → Option Database
  | [], db => some db
  | st :: rest, db =>
    match st db with
    | some db2 => execStmts rest db2
    | none => none

/-- Modelled from the spec: transactional semantics — if every statement
succeeds the transaction commits its final state, and if any statement
fails the whole transaction rolls back to the state before the
transaction. -/
def runTransaction (stmts : List Stmt) (db : Database) : Database :=
  match execStmts stmts db with
  | some db2 => db2
  | none => db

/-- The ETL invocation parameters documented in the repository README
(`--semester-id`, `--concurrency`, `--update-professors`, `--dry-run`). -/
structure Flags where
  semesterId : Int
  concurrency : Nat
  updateProfessors : Bool
  dryRun : Bool
  deriving Repr, DecidableEq

/-- Modelled from the spec: resolution of the invocation parameters (the
argument parser of `scripts/etl_tidb.py` is not among the checked sources).
The target semester is required; a missing optional parameter takes its
default: concurrency 12, professor refresh on, dry run off. -/
def parseFlags (semesterId : Option Int) (concurrency : Option Nat)
    (updateProfessors : Option Bool) (dryRun : Option Bool) : Option Flags :=
  match semesterId with
  | none => none
  | some sid => some
      { semesterId := sid
        concurrency := concurrency.getD 12
        updateProfessors := updateProfessors.getD true
        dryRun := dryRun.getD false }

/-- The five recognized upstream section-type strings; everything else is
classified as `Other`. -/
def recognizedSectionTypes : List String :=
  ["Lecture", "Discussion", "Lab", "Quiz", "Studio"]

/-- Modelled from the spec: Transform/Normalize classification of an
upstream section-type string into the fixed six-value enumeration of
`sections.section_type`; an unrecognized string maps to `Other` and the
section is never dropped (the function is total). -/
def classifySectionType (raw : String) : String :=
  if recognizedSectionTypes.contains raw then raw else "Other"

/-- Modelled from the spec: the stored error detail of a failed run — the
violation list rendered as text. -/
def renderViolations (vs : List Violation) : String :=
  String.intercalate "; " (vs.map (fun v => v.rule ++ ": " ++ v.key))

/-- Modelled from the spec: the per-entity-kind count map recorded with
every run. -/
def runCounts (stg : Staging) (updateProfessors : Bool) (vs : List Violation) :
    List (String × Nat) :=
  [("courses", stg.courses.length),
   ("sections", stg.sections.length),
   ("professors", if updateProfessors then stg.professors.length else 0),
   ("violations", vs.length)]

/-- The next AUTO_INCREMENT value for `etl_runs.run_id`. -/
def nextRunId (runs : List EtlRunRow) : Int :=
  (runs.map (fun r => r.run_id)).foldr max 0 + 1

/-- Result of one ETL invocation: the database afterwards and the audit
record the Run Recorder finalized for it. -/
structure EtlOutcome where
  db : Database
  record : EtlRunRow
  deriving Repr

/-- Modelled from the spec: one ETL invocation after extraction and staging
load — validate the staged batch, then either promote (unless `--dry-run`)
or abort, and always finalize exactly one `etl_runs` audit row.  `stg` is
the staged candidate batch the Staging Loader produced. -/
def runEtl (db : Database) (flags : Flags) (stg : Staging)
    (startedAt finishedAt : Nat) : EtlOutcome :=
  let vs := validateStaging stg db.programs db.professors
  let counts := runCounts stg flags.updateProfessors vs
  let rid := nextRunId db.etl_runs
  if vs.isEmpty then
    let db2 :=
      if flags.dryRun then db
      else promoteSemester db stg flags.semesterId flags.updateProfessors
    let row : EtlRunRow :=
      { run_id := rid, semester_id := some flags.semesterId
        started_at := startedAt, finished_at := some finishedAt
        status := "success", error := none, counts := some counts }
    { db := { db2 with etl_runs := db.etl_runs ++ [row] }, record := row }
  else
    let row : EtlRunRow :=
      { run_id := rid, semester_id := some flags.semesterId
        started_at := startedAt, finished_at := some finishedAt
        status := "failure", error := some (renderViolations vs)
        counts := some counts }
    { db := { db with etl_runs := db.etl_runs ++ [row] }, record := row }

/-- The UI shape of a course section (`UICourseSection` of
`composables/api/types`, with the fields the checked sources read and
build).  `enrolled` and `capacity` may be absent (`none`); `units` and
`type` are NULL-able. -/
structure UICourseSection where
  sectionId : String
  instructors : List String
  enrolled : Option Int
  capacity : Option Int
  schedule : String
  location : String
  hasDClearance : Bool
  hasPrerequisites : Bool
  hasDuplicatedCredit : Bool
  units : Option Int
  type : Option String
  deriving Repr, DecidableEq

/-- The JavaScript coercion `Number(x || 0)` applied to an
integer-or-absent value: an absent (or zero) value becomes 0, any other
integer is kept. -/
def numOr0 (x : Option Int) : Int := x.getD 0

/-- `app/composables/filters/enrollment.ts`, `sectionMatchesEnrollment`:
mode `any` always matches; otherwise a section is full when its capacity
is positive and `enrolled >= capacity` (a non-positive capacity is never
full); mode `only-full` matches full sections, every other mode matches
non-full sections.  `EnrollmentFilter` is a string union at runtime and is
kept as `String`. -/
def sectionMatchesEnrollment (s : UICourseSection) (mode : String) : Bool :=
  if mode == "any" then true
  else
    let cap := numOr0 s.capacity
    let enrolled := numOr0 s.enrolled
    let isFull := if cap > 0 then decide (enrolled ≥ cap) else false
    if mode == "only-full" then isFull else !isFull

/-- Modelled from the spec: `normalizeCourseCode` and `normalizeSectionId`
of `utils/normalize` are not among the checked sources; the specification
describes identifier normalization as trim/upper-case of course and
section codes.  Both ends of the character list are trimmed of
whitespace. -/
def trimChars (l : List Char) : List Char :=
  ((l.dropWhile Char.isWhitespace).reverse.dropWhile Char.isWhitespace).reverse

/-- Modelled from the spec: course-code normalization — trim surrounding
whitespace and upper-case. -/
def normalizeCourseCode (s : String) : String :=
  String.mk (trimChars (s.data.map Char.toUpper))

/-- Modelled from the spec: section-id normalization — trim surrounding
whitespace. -/
def normalizeSectionId (s : String) : String :=
  String.mk (trimChars s.data)

/-- A persisted schedule pair `{ code, sectionId }`
(`app/stores/schedule.ts` line 13). -/
structure SchedulePair where
  code : String
  sectionId : String
  deriving Repr, DecidableEq

/-- The course argument of `upsertScheduledSection`
(`{ code, title, description }`). -/
structure CourseRef where
  code : String
  title : String
  description : String
  deriving Repr, DecidableEq

/-- The schedule-store state touched by the persisted-pairs operations of
`app/stores/schedule.ts`: the per-term pair lists (`pairsByTerm`, absent
terms read as the empty list) and the current term id. -/
structure ScheduleState where
  pairsByTerm : String → List SchedulePair
  termId : String

/-- `app/stores/schedule.ts` `currentPairs()`. -/
def currentPairs (st : ScheduleState) : List SchedulePair :=
  st.pairsByTerm st.termId

/-- `app/stores/schedule.ts` `setCurrentPairs(next)`. -/
def setCurrentPairs (st : ScheduleState) (next : List SchedulePair) : ScheduleState :=
  { st with pairsByTerm := fun t => if t == st.termId then next else st.pairsByTerm t }

/-- `app/stores/schedule.ts` lines 208-216, `upsertScheduledSection`:
normalize the course code and section id; do nothing when either
normalizes to empty or when an equivalent pair is already present;
otherwise append the normalized pair. -/
def upsertScheduledSection (st : ScheduleState) (course : CourseRef)
    (s : UICourseSection) : ScheduleState :=
  let code := normalizeCourseCode course.code
  let sid := normalizeSectionId s.sectionId
  if code == "" || sid == "" then st
  else
    let list := currentPairs st
    let alreadyScheduled := list.any (fun p =>
      normalizeCourseCode p.code == code && normalizeSectionId p.sectionId == sid)
    if alreadyScheduled then st
    else setCurrentPairs st (list ++ [{ code := code, sectionId := sid }])

/-- `app/stores/schedule.ts` lines 218-225, `hasScheduled`: with an empty
(or absent) section id, test for any pair of the course; otherwise test
for the exact pair.  The optional string arguments are `Option String`
(`x || ''` reads an absent argument as the empty string). -/
def hasScheduled (st : ScheduleState) (courseCode : Option String)
    (sectionId : Option String) : Bool :=
  let code := normalizeCourseCode (courseCode.getD "")
  if code == "" then false
  else
    let sid := normalizeSectionId (sectionId.getD "")
    let list := currentPairs st
    if sid == "" then list.any (fun p => normalizeCourseCode p.code == code)
    else list.any (fun p =>
      normalizeCourseCode p.code == code && normalizeSectionId p.sectionId == sid)

/-- `app/stores/schedule.ts` lines 227-240, `removeScheduledSection`: keep
pairs of other courses; for the course, with an empty (or absent) section
id drop every pair, otherwise drop the pairs with that section id. -/
def removeScheduledSection (st : ScheduleState) (courseCode : Option String)
    (sectionId : Option String) : ScheduleState :=
  let code := normalizeCourseCode (courseCode.getD "")
  if code == "" then st
  else
    let sid := normalizeSectionId (sectionId.getD "")
    let list := currentPairs st
    let next := list.filter (fun p =>
      let pc := normalizeCourseCode p.code
      let ps := normalizeSectionId p.sectionId
      if pc != code then true
      else if sid == "" then false
      else ps != sid)
    setCurrentPairs st next

/-- The single most important integrity property, stated over table
contents: every section row references a course row with the same
`(semester_id, course_id)`. -/
def noOrphanSections (secRows : List SectionRow) (courseRows : List CourseRow) : Bool :=
  secRows.all (fun s =>
    courseRows.any (fun c =>
      c.semester_id == s.semester_id && c.course_id == s.course_id))

/-! ### Sample data (used by concrete witnesses) -/

/-- A sample `semesters` row. -/
def semRow : SemesterRow :=
  { semester_id := 20261, semester_name := "Spring 2026", year := 2026
    term := "Spring", is_active := true, created_at := 0 }

/-- A second sample `semesters` row, inactive, with a distinct id. -/
def semRow2 : SemesterRow :=
  { semester_id := 20262, semester_name := "Summer 2026", year := 2026
    term := "Summer", is_active := false, created_at := 0 }

/-- A sample `schools` row. -/
def schoolRow : SchoolRow :=
  { school_id := "DRNS", school_name := "Dornsife", created_at := 0, updated_at := 0 }

/-- A sample `programs` row. -/
def programRow : ProgramRow :=
  { school_id := "DRNS", program_id := "COLT"
    program_name := "Comparative Literature", created_at := 0, updated_at := 0 }

/-- A sample `professors` row. -/
def profRow : ProfessorRow :=
  { professor_name := "Ada Lovelace", rmp_id := some 1, difficulty := some 250
    rating := some 450, rating_count := some 10, take_again_percentage := some 9000
    created_at := 0, updated_at := 0 }

/-- A sample `courses` row. -/
def courseRow : CourseRow :=
  { semester_id := 20261, course_id := "COLT-102", program_id := "COLT"
    course_number := 102, title := "World Literature", description := none
    created_at := 0, updated_at := 0 }

/-- A sample `sections` row. -/
def sectionRow : SectionRow :=
  { semester_id := 20261, section_id := 40386, course_id := "COLT-102"
    section_type := "Lecture", units := "4.0", total_seats := 20
    registered_seats := 18, location := some "THH 101"
    time_schedule := some "MW 10-11:50am", d_clearance_required := false
    created_at := 0, updated_at := 0 }

/-- A sample `section_instructors` row. -/
def instRow : SectionInstructorRow :=
  { semester_id := 20261, section_id := 40386
    professor_name := "Ada Lovelace", updated_at := 0 }

/-- A sample `course_ge_categories` row. -/
def geRow : CourseGECategoryRow :=
  { semester_id := 20261, course_id := "COLT-102", ge_category := "B", updated_at := 0 }

/-- A sample `section_prerequisites` row. -/
def preRow : SectionPrerequisiteRow :=
  { semester_id := 20261, section_id := 40386
    prerequisite_text := "COLT-101", updated_at := 0 }

/-- A sample `section_duplicated_credits` row. -/
def dupRow : SectionDuplicatedCreditRow :=
  { semester_id := 20261, section_id := 40386
    duplicated_text := "COLT-103", updated_at := 0 }

/-- A small concrete database state with one row in every catalog table. -/
def sampleDb : Database :=
  { semesters := [semRow], schools := [schoolRow], programs := [programRow]
    professors := [profRow], courses := [courseRow], sections := [sectionRow]
    section_instructors := [instRow], course_ge_categories := [geRow]
    section_prerequisites := [preRow], section_duplicated_credits := [dupRow]
    etl_runs := [] }

/-- A small concrete staging batch matching `sampleDb`. -/
def sampleStg : Staging :=
  { courses := [courseRow], sections := [sectionRow]
    section_instructors := [instRow], course_ge_categories := [geRow]
    section_prerequisites := [preRow], section_duplicated_credits := [dupRow]
    schools := [schoolRow], programs := [programRow], professors := [profRow] }

/-- An empty staging batch (models a silent upstream outage). -/
def emptyStg : Staging :=
  { courses := [], sections := [], section_instructors := []
    course_ge_categories := [], section_prerequisites := []
    section_duplicated_credits := [], schools := [], programs := []
    professors := [] }

/-- Default flags for semester 20261. -/
def flags0 : Flags :=
  { semesterId := 20261, concurrency := 12, updateProfessors := true, dryRun := false }

/-- A concrete UI section used by witnesses: no capacity reported,
50 enrolled. -/
def uiSec0 : UICourseSection :=
  { sectionId := " 40386 ", instructors := [], enrolled := some 50
    capacity := none, schedule := "", location := "", hasDClearance := false
    hasPrerequisites := false, hasDuplicatedCredit := false
    units := none, type := none }

/-- An empty schedule-store state for term 20261. -/
def st0 : ScheduleState :=
  { pairsByTerm := fun _ => [], termId := "20261" }

/-- A concrete course argument with an un-normalized code. -/
def course0 : CourseRef :=
  { code := " colt-102 ", title := "World Literature", description := "" }

/-! ### Supporting lemmas -/

theorem allDistinct_pairwise {α : Type} [DecidableEq α] {l : List α}
    (h : allDistinct l = true) : l.Pairwise (fun a b => a ≠ b) := by
  induction l with
  | nil => exact List.Pairwise.nil
  | cons a t ih =>
    simp only [allDistinct, Bool.and_eq_true, Bool.not_eq_true', List.contains,
      List.elem_eq_mem, decide_eq_false_iff_not] at h
    exact List.Pairwise.cons (fun b hb hab => h.1 (hab ▸ hb)) (ih h.2)

theorem filter_key_eq_nil {α β : Type} [DecidableEq β] (key : α → β) (l : List α)
    (b : β) (h : b ∉ l.map key) : l.filter (fun r => key r == b) = [] := by
  simp only [List.filter_eq_nil_iff]
  intro a ha hk
  exact h (List.mem_map.mpr ⟨a, ha, beq_iff_eq.mp hk⟩)

theorem filter_key_length_one {α β : Type} [DecidableEq β] (key : α → β)
    (l : List α) (b : β) (hd : allDistinct (l.map key) = true)
    (hm : b ∈ l.map key) : (l.filter (fun r => key r == b)).length = 1 := by
  induction l with
  | nil => simp at hm
  | cons a t ih =>
    simp only [List.map_cons, allDistinct, Bool.and_eq_true, Bool.not_eq_true',
      List.contains, List.elem_eq_mem, decide_eq_false_iff_not] at hd
    rw [List.filter_cons]
    by_cases hab : key a = b
    · rw [if_pos (by simp [hab])]
      rw [filter_key_eq_nil key t b (hab ▸ hd.1)]
      rfl
    · rw [if_neg (by simp [hab])]
      rcases List.mem_cons.mp hm with h | h
      · exact absurd h.symm hab
      · exact ih hd.2 h

theorem char_toNat_ofNat {n : Nat} (h : n.isValidChar) : (Char.ofNat n).toNat = n := by
  rw [Char.ofNat, dif_pos h]
  rfl

theorem char_eq_iff_toNat {c d : Char} : c = d ↔ c.toNat = d.toNat := by
  constructor
  · intro h; rw [h]
  · intro h
    have h2 := congrArg Char.ofNat h
    rwa [Char.ofNat_toNat, Char.ofNat_toNat] at h2

theorem toUpper_eq_pos {c : Char} (h : c.toNat ≥ 97 ∧ c.toNat ≤ 122) :
    c.toUpper = Char.ofNat (c.toNat - 32) := by
  show (if c.toNat ≥ 97 ∧ c.toNat ≤ 122 then Char.ofNat (c.toNat - 32) else c) = _
  rw [if_pos h]

theorem toUpper_eq_neg {c : Char} (h : ¬(c.toNat ≥ 97 ∧ c.toNat ≤ 122)) :
    c.toUpper = c := by
  show (if c.toNat ≥ 97 ∧ c.toNat ≤ 122 then Char.ofNat (c.toNat - 32) else c) = c
  rw [if_neg h]

theorem toNat_toUpper_pos {c : Char} (h : c.toNat ≥ 97 ∧ c.toNat ≤ 122) :
    c.toUpper.toNat = c.toNat - 32 := by
  rw [toUpper_eq_pos h]
  exact char_toNat_ofNat (Or.inl (by omega))

theorem toUpper_toUpper (c : Char) : c.toUpper.toUpper = c.toUpper := by
  by_cases h : c.toNat ≥ 97 ∧ c.toNat ≤ 122
  · have h2 := toNat_toUpper_pos h
    exact toUpper_eq_neg (by omega)
  · rw [toUpper_eq_neg h, toUpper_eq_neg h]

theorem isWhitespace_iff (c : Char) :
    c.isWhitespace = true ↔
      (c.toNat = 32 ∨ c.toNat = 9 ∨ c.toNat = 13 ∨ c.toNat = 10) := by
  show (c = ' ' || c = '\t' || c = '\r' || c = '\n') = true ↔ _
  simp only [Bool.or_eq_true, decide_eq_true_eq]
  rw [@char_eq_iff_toNat c ' ', @char_eq_iff_toNat c '\t',
    @char_eq_iff_toNat c '\r', @char_eq_iff_toNat c '\n']
  have h1 : (' ' : Char).toNat = 32 := rfl
  have h2 : ('\t' : Char).toNat = 9 := rfl
  have h3 : ('\r' : Char).toNat = 13 := rfl
  have h4 : ('\n' : Char).toNat = 10 := rfl
  rw [h1, h2, h3, h4]
  tauto

theorem isWhitespace_toUpper (c : Char) :
    (Char.toUpper c).isWhitespace = Char.isWhitespace c := by
  by_cases h : c.toNat ≥ 97 ∧ c.toNat ≤ 122
  · have h2 := toNat_toUpper_pos h
    have l : (Char.toUpper c).isWhitespace = false := by
      rw [← Bool.not_eq_true, isWhitespace_iff, h2]
      omega
    have r : Char.isWhitespace c = false := by
      rw [← Bool.not_eq_true, isWhitespace_iff]
      omega
    rw [l, r]
  · rw [toUpper_eq_neg h]

theorem dropWhile_head_false {α : Type} (p : α → Bool) {l : List α} {a : α}
    {t : List α} (h : l.dropWhile p = a :: t) : p a = false := by
  induction l generalizing t with
  | nil => simp [List.dropWhile] at h
  | cons c cs ih =>
    rw [List.dropWhile_cons] at h
    by_cases hc : p c = true
    · rw [if_pos hc] at h; exact ih h
    · rw [if_neg hc] at h
      injection h with h1 h2
      rw [← h1]
      exact Bool.not_eq_true _ |>.mp hc

theorem dropWhile_rdropWhile_dropWhile {α : Type} (p : α → Bool) (l : List α) :
    (List.rdropWhile p (l.dropWhile p)).dropWhile p
      = List.rdropWhile p (l.dropWhile p) := by
  cases h : List.rdropWhile p (l.dropWhile p) with
  | nil => simp
  | cons a t =>
    obtain ⟨s, hs⟩ := List.rdropWhile_prefix p (l.dropWhile p)
    rw [h] at hs
    have hL : l.dropWhile p = a :: (t ++ s) := by rw [← hs]; simp
    have ha := dropWhile_head_false p hL
    rw [List.dropWhile_cons, if_neg (by simp [ha])]

theorem trimChars_idem (l : List Char) : trimChars (trimChars l) = trimChars l := by
  have e : ∀ m : List Char,
      trimChars m
        = List.rdropWhile Char.isWhitespace (m.dropWhile Char.isWhitespace) :=
    fun m => rfl
  rw [e l, e (List.rdropWhile Char.isWhitespace
    (l.dropWhile Char.isWhitespace))]
  rw [dropWhile_rdropWhile_dropWhile, List.rdropWhile_idempotent]

theorem dropWhile_map_toUpper (l : List Char) :
    (l.map Char.toUpper).dropWhile Char.isWhitespace
      = (l.dropWhile Char.isWhitespace).map Char.toUpper := by
  induction l with
  | nil => rfl
  | cons a t ih =>
    simp only [List.map_cons, List.dropWhile_cons, isWhitespace_toUpper]
    by_cases h : Char.isWhitespace a = true
    · rw [if_pos h, if_pos h]; exact ih
    · rw [if_neg h, if_neg h, List.map_cons]

theorem trimChars_map_toUpper (l : List Char) :
    trimChars (l.map Char.toUpper) = (trimChars l).map Char.toUpper := by
  unfold trimChars
  rw [dropWhile_map_toUpper, ← List.map_reverse, dropWhile_map_toUpper,
    ← List.map_reverse]

theorem map_toUpper_idem (l : List Char) :
    (l.map Char.toUpper).map Char.toUpper = l.map Char.toUpper := by
  rw [List.map_map]
  exact List.map_congr_left (fun a _ => toUpper_toUpper a)

theorem normalizeCourseCode_idem (s : String) :
    normalizeCourseCode (normalizeCourseCode s) = normalizeCourseCode s := by
  show String.mk (trimChars ((trimChars (s.data.map Char.toUpper)).map Char.toUpper))
      = String.mk (trimChars (s.data.map Char.toUpper))
  rw [← trimChars_map_toUpper, map_toUpper_idem, trimChars_idem]

theorem normalizeSectionId_idem (s : String) :
    normalizeSectionId (normalizeSectionId s) = normalizeSectionId s := by
  show String.mk (trimChars (trimChars s.data)) = String.mk (trimChars s.data)
  rw [trimChars_idem]

theorem normalizeSectionId_empty : normalizeSectionId "" = "" := rfl

theorem dbOk_semesters {db : Database} (h : dbOk db = true) :
    semestersTableOk db.semesters = true := by
  unfold dbOk at h
  simp only [Bool.and_eq_true] at h
  exact h.1.1.1.1.1.1.1.1.1.1.1

theorem dbOk_sections {db : Database} (h : dbOk db = true) :
    sectionsTableOk db.sections = true := by
  unfold dbOk at h
  simp only [Bool.and_eq_true] at h
  exact h.1.1.1.1.1.1.2

theorem dbOk_section_instructors {db : Database} (h : dbOk db = true) :
    sectionInstructorsTableOk db.section_instructors = true := by
  unfold dbOk at h
  simp only [Bool.and_eq_true] at h
  exact h.1.1.1.1.1.2

theorem dbOk_course_ge_categories {db : Database} (h : dbOk db = true) :
    courseGECategoriesTableOk db.course_ge_categories = true := by
  unfold dbOk at h
  simp only [Bool.and_eq_true] at h
  exact h.1.1.1.1.2

theorem dbOk_section_prerequisites {db : Database} (h : dbOk db = true) :
    sectionPrerequisitesTableOk db.section_prerequisites = true := by
  unfold dbOk at h
  simp only [Bool.and_eq_true] at h
  exact h.1.1.1.2

theorem dbOk_section_duplicated_credits {db : Database} (h : dbOk db = true) :
    sectionDuplicatedCreditsTableOk db.section_duplicated_credits = true := by
  unfold dbOk at h
  simp only [Bool.and_eq_true] at h
  exact h.1.1.2

theorem dbOk_foreignKeys {db : Database} (h : dbOk db = true) :
    foreignKeysOk db = true := by
  unfold dbOk at h
  simp only [Bool.and_eq_true] at h
  exact h.2

theorem dbOk_noOrphanSections {db : Database} (h : dbOk db = true) :
    noOrphanSections db.sections db.courses = true := by
  have hfk := dbOk_foreignKeys h
  unfold foreignKeysOk at hfk
  simp only [Bool.and_eq_true] at hfk
  have hs := hfk.1.1.1.1.2
  simp only [List.all_eq_true, Bool.and_eq_true] at hs
  simp only [noOrphanSections, List.all_eq_true]
  intro s hsm
  exact (hs s hsm).1

theorem promote_sections_eq (db : Database) (stg : Staging) (sem : Int) (up : Bool) :
    (promoteSemester db stg sem up).sections
      = db.sections.filter (fun r => !(r.semester_id == sem))
        ++ stg.sections.filter (fun r => r.semester_id == sem) := rfl

theorem promote_courses_eq (db : Database) (stg : Staging) (sem : Int) (up : Bool) :
    (promoteSemester db stg sem up).courses
      = db.courses.filter (fun r => !(r.semester_id == sem))
        ++ stg.courses.filter (fun r => r.semester_id == sem) := rfl

theorem validate_eq_nil_noOrphan {stg : Staging} {pp : List ProgramRow}
    {pf : List ProfessorRow} (h : validateStaging stg pp pf = []) :
    ∀ s ∈ stg.sections, ∃ c ∈ stg.courses,
      c.semester_id = s.semester_id ∧ c.course_id = s.course_id := by
  unfold validateStaging at h
  simp only [List.append_eq_nil] at h
  have h1 := h.1.1.1.1
  unfold checkNoOrphanSections at h1
  rw [List.map_eq_nil_iff, List.filter_eq_nil_iff] at h1
  intro s hs
  have h2 := h1 s hs
  simp only [Bool.not_eq_true', Bool.not_eq_false, List.any_eq_true,
    Bool.and_eq_true, beq_iff_eq] at h2
  obtain ⟨c, hc, he1, he2⟩ := h2
  exact ⟨c, hc, he1, he2⟩

theorem currentPairs_set (st : ScheduleState) (next : List SchedulePair) :
    currentPairs (setCurrentPairs st next) = next := by
  simp [currentPairs, setCurrentPairs]

theorem promote_noOrphan {db : Database} {stg : Staging} {sem : Int} {up : Bool}
    (h1 : noOrphanSections db.sections db.courses = true)
    (h2 : ∀ s ∈ stg.sections, ∃ c ∈ stg.courses,
        c.semester_id = s.semester_id ∧ c.course_id = s.course_id) :
    noOrphanSections (promoteSemester db stg sem up).sections
      (promoteSemester db stg sem up).courses = true := by
  rw [promote_sections_eq, promote_courses_eq]
  simp only [noOrphanSections, List.all_eq_true] at h1 ⊢
  intro s hs
  rcases List.mem_append.mp hs with hmem | hmem
  · obtain ⟨hm, hcond⟩ := List.mem_filter.mp hmem
    have h3 := h1 s hm
    simp only [List.any_eq_true, Bool.and_eq_true, beq_iff_eq] at h3 ⊢
    obtain ⟨c, hc, he1, he2⟩ := h3
    refine ⟨c, List.mem_append.mpr (Or.inl (List.mem_filter.mpr ⟨hc, ?_⟩)), he1, he2⟩
    rw [he1]; exact hcond
  · obtain ⟨hm, hcond⟩ := List.mem_filter.mp hmem
    obtain ⟨c, hc, he1, he2⟩ := h2 s hm
    simp only [List.any_eq_true, Bool.and_eq_true, beq_iff_eq]
    refine ⟨c, List.mem_append.mpr (Or.inr (List.mem_filter.mpr ⟨hc, ?_⟩)), he1, he2⟩
    rw [he1]; exact hcond

/-! ### Claim theorems -/

/-- C1: no-orphan-sections invariant.  Every section row of a
schema-admissible production state references an existing course row of
the same semester (the foreign key of `sections`), and after any
successful promotion — validation passed and `promoteSemester` ran — the
production sections again all reference an existing production course of
the same semester. -/
theorem no_orphan_sections_invariant :
    (∀ db : Database, dbOk db = true →
      noOrphanSections db.sections db.courses = true)
    ∧ (∀ (db : Database) (stg : Staging) (sem : Int) (up : Bool),
        dbOk db = true →
        validateStaging stg db.programs db.professors = [] →
        noOrphanSections (promoteSemester db stg sem up).sections
          (promoteSemester db stg sem up).courses = true) := by
  constructor
  · intro db h
    exact dbOk_noOrphanSections h
  · intro db stg sem up hdb hv
    exact promote_noOrphan (dbOk_noOrphanSections hdb) (validate_eq_nil_noOrphan hv)

/-- C1 witness: at the concrete sample state the hypotheses hold and the
promoted state has no orphan sections. -/
theorem no_orphan_sections_invariant_witness :
    dbOk sampleDb = true
      ∧ validateStaging sampleStg sampleDb.programs sampleDb.professors = []
      ∧ noOrphanSections (promoteSemester sampleDb sampleStg 20261 true).sections
          (promoteSemester sampleDb sampleStg 20261 true).courses = true :=
  ⟨by decide, by decide,
    no_orphan_sections_invariant.2 sampleDb sampleStg 20261 true (by decide) (by decide)⟩

/-- C3: single active semester.  After an "activate" promotion of a
semester present in a schema-admissible `semesters` table exactly one row
has `is_active = true`; and storage alone does not enforce this — the
`semesters` table accepts two simultaneously active rows. -/
theorem single_active_semester :
    (∀ (rows : List SemesterRow) (sem : Int),
        semestersTableOk rows = true →
        rows.any (fun r => r.semester_id == sem) = true →
        ((activateSemesters rows sem).filter (fun r => r.is_active)).length = 1)
    ∧ (∃ r1 r2 : SemesterRow, r1.is_active = true ∧ r2.is_active = true
        ∧ semestersTableOk [r1, r2] = true) := by
  constructor
  · intro rows sem h1 h2
    have hd : allDistinct (rows.map (fun r => r.semester_id)) = true := by
      unfold semestersTableOk at h1
      simp only [Bool.and_eq_true] at h1
      exact h1.2
    have hm : sem ∈ rows.map (fun r => r.semester_id) := by
      simp only [List.any_eq_true] at h2
      obtain ⟨r, hr, hb⟩ := h2
      exact List.mem_map.mpr ⟨r, hr, beq_iff_eq.mp hb⟩
    unfold activateSemesters
    rw [List.filter_map]
    have e : ((fun r : SemesterRow => r.is_active)
        ∘ (fun r : SemesterRow => { r with is_active := r.semester_id == sem }))
        = fun r : SemesterRow => r.semester_id == sem := rfl
    rw [e, List.length_map]
    exact filter_key_length_one (fun r => r.semester_id) rows sem hd hm
  · exact ⟨semRow, { semRow2 with is_active := true }, rfl, rfl, by decide⟩

/-- C3 witness: activating semester 20262 in the concrete two-row table
leaves exactly one active row. -/
theorem single_active_semester_witness :
    semestersTableOk [semRow, semRow2] = true
      ∧ [semRow, semRow2].any (fun r => r.semester_id == (20262 : Int)) = true
      ∧ ((activateSemesters [semRow, semRow2] 20262).filter
          (fun r => r.is_active)).length = 1 :=
  ⟨by decide, by decide,
    single_active_semester.1 [semRow, semRow2] 20262 (by decide) (by decide)⟩

/-- C5: seat counts are a soft expectation.  The schema accepts a section
row with `registered_seats > total_seats`, and the load path accepts it
too: a staging batch containing such a section passes validation with no
violations. -/
theorem seat_counts_soft_expectation :
    (∃ r : SectionRow, r.registered_seats > r.total_seats
      ∧ sectionRowOk r = true ∧ sectionsTableOk [r] = true)
    ∧ (∃ stg : Staging,
        (∃ r ∈ stg.sections, r.registered_seats > r.total_seats)
        ∧ validateStaging stg [] [] = []) := by
  constructor
  · exact ⟨{ sectionRow with registered_seats := 30 }, by decide, by decide, by decide⟩
  · refine ⟨{ sampleStg with sections := [{ sectionRow with registered_seats := 30 }] },
      ⟨{ sectionRow with registered_seats := 30 }, by decide, by decide⟩, by decide⟩

/-- C6: section type classification.  The Transform classification always
lands in the fixed six-value enumeration, an unrecognized upstream type
string maps to `Other` (the section is never dropped), and every stored
section's type is a member of the enumeration. -/
theorem section_type_classification :
    (∀ raw : String, sectionTypeEnum.contains (classifySectionType raw) = true)
    ∧ (∀ raw : String, recognizedSectionTypes.contains raw = false →
        classifySectionType raw = "Other")
    ∧ (∀ db : Database, dbOk db = true →
        ∀ r ∈ db.sections, sectionTypeEnum.contains r.section_type = true) := by
  refine ⟨?_, ?_, ?_⟩
  · intro raw
    unfold classifySectionType
    by_cases h : recognizedSectionTypes.contains raw = true
    · rw [if_pos h]
      have hm : raw ∈ recognizedSectionTypes := by
        simpa [List.contains, List.elem_eq_mem] using h
      fin_cases hm <;> decide
    · rw [if_neg h]
      decide
  · intro raw h
    unfold classifySectionType
    rw [if_neg (by simp only [h]; decide)]
  · intro db hdb r hr
    have hs := dbOk_sections hdb
    unfold sectionsTableOk at hs
    simp only [Bool.and_eq_true, List.all_eq_true] at hs
    have h2 := hs.1 r hr
    unfold sectionRowOk at h2
    simp only [Bool.and_eq_true] at h2
    exact h2.1.1.1.1

/-- C6 witness: an unrecognized upstream type is classified `Other`, and
the concrete sample state only stores enumerated types. -/
theorem section_type_classification_witness :
    classifySectionType "Seminar" = "Other"
      ∧ sectionTypeEnum.contains sectionRow.section_type = true :=
  ⟨section_type_classification.2.1 "Seminar" (by decide),
    section_type_classification.2.2 sampleDb (by decide) sectionRow
      (by simp [sampleDb])⟩

/-- C7: junction and annotation uniqueness.  In every schema-admissible
state the `section_instructors`, `course_ge_categories`,
`section_prerequisites` and `section_duplicated_credits` rows are
pairwise distinct on their respective key triples, and every stored
`ge_category` is drawn from the enumeration A through H. -/
theorem junction_annotation_uniqueness :
    ∀ db : Database, dbOk db = true →
      (db.section_instructors.map
          (fun r => (r.semester_id, r.section_id, r.professor_name))).Pairwise
        (fun a b => a ≠ b)
      ∧ (db.course_ge_categories.map
          (fun r => (r.semester_id, r.course_id, r.ge_category))).Pairwise
        (fun a b => a ≠ b)
      ∧ (∀ g ∈ db.course_ge_categories, g.ge_category ∈ geCategoryEnum)
      ∧ (db.section_prerequisites.map
          (fun r => (r.semester_id, r.section_id, r.prerequisite_text))).Pairwise
        (fun a b => a ≠ b)
      ∧ (db.section_duplicated_credits.map
          (fun r => (r.semester_id, r.section_id, r.duplicated_text))).Pairwise
        (fun a b => a ≠ b) := by
  intro db hdb
  have h1 := dbOk_section_instructors hdb
  have h2 := dbOk_course_ge_categories hdb
  have h3 := dbOk_section_prerequisites hdb
  have h4 := dbOk_section_duplicated_credits hdb
  unfold sectionInstructorsTableOk at h1
  unfold courseGECategoriesTableOk at h2
  unfold sectionPrerequisitesTableOk at h3
  unfold sectionDuplicatedCreditsTableOk at h4
  simp only [Bool.and_eq_true, List.all_eq_true] at h1 h2 h3 h4
  refine ⟨allDistinct_pairwise h1.2, allDistinct_pairwise h2.2, ?_,
    allDistinct_pairwise h3.2, allDistinct_pairwise h4.2⟩
  intro g hg
  have h5 := h2.1 g hg
  unfold courseGECategoryRowOk at h5
  simp only [Bool.and_eq_true] at h5
  simpa [List.contains, List.elem_eq_mem] using h5.1

/-- C7 witness: the concrete sample state is schema-admissible and its
junction rows are unique per triple. -/
theorem junction_annotation_uniqueness_witness :
    dbOk sampleDb = true
      ∧ (sampleDb.course_ge_categories.map
          (fun r => (r.semester_id, r.course_id, r.ge_category))).Pairwise
        (fun a b => a ≠ b) :=
  ⟨by decide, (junction_annotation_uniqueness sampleDb (by decide)).2.1⟩

/-- C8: invocation parameter defaults.  The target semester is required
(parsing fails without it); omitted optional parameters default to
concurrency 12, professor refresh on, dry run off; provided values are
used as given. -/
theorem invocation_parameter_defaults :
    (∀ sid : Int, parseFlags (some sid) none none none
        = some { semesterId := sid, concurrency := 12
                 updateProfessors := true, dryRun := false })
    ∧ (∀ (c : Option Nat) (u d : Option Bool), parseFlags none c u d = none)
    ∧ (∀ (sid : Int) (c : Nat) (u d : Bool),
        parseFlags (some sid) (some c) (some u) (some d)
          = some { semesterId := sid, concurrency := c
                   updateProfessors := u, dryRun := d }) :=
  ⟨fun _ => rfl, fun _ _ _ => rfl, fun _ _ _ _ => rfl⟩

/-- C2: atomic promotion.  A run that fails validation leaves every
production table unchanged and is recorded as a failure carrying the
violation list; and a promotion transaction in which any statement fails
rolls back to the state before the transaction. -/
theorem atomic_promotion :
    (∀ (db : Database) (flags : Flags) (stg : Staging) (t1 t2 : Nat),
        validateStaging stg db.programs db.professors ≠ [] →
        (runEtl db flags stg t1 t2).db.semesters = db.semesters
        ∧ (runEtl db flags stg t1 t2).db.courses = db.courses
        ∧ (runEtl db flags stg t1 t2).db.sections = db.sections
        ∧ (runEtl db flags stg t1 t2).db.section_instructors = db.section_instructors
        ∧ (runEtl db flags stg t1 t2).db.course_ge_categories = db.course_ge_categories
        ∧ (runEtl db flags stg t1 t2).db.section_prerequisites = db.section_prerequisites
        ∧ (runEtl db flags stg t1 t2).db.section_duplicated_credits
            = db.section_duplicated_credits
        ∧ (runEtl db flags stg t1 t2).db.professors = db.professors
        ∧ (runEtl db flags stg t1 t2).record.status = "failure"
        ∧ (runEtl db flags stg t1 t2).record.error
            = some (renderViolations (validateStaging stg db.programs db.professors)))
    ∧ (∀ (stmts : List Stmt) (db : Database),
        execStmts stmts db = none → runTransaction stmts db = db) := by
  constructor
  · intro db flags stg t1 t2 h
    have hne : (validateStaging stg db.programs db.professors).isEmpty = false := by
      rw [List.isEmpty_eq_false]
      exact h
    simp [runEtl, hne]
  · intro stmts db h
    unfold runTransaction
    rw [h]

/-- C2 witness: with an empty staging batch validation fails, the sample
production state is untouched and the run is recorded as a failure; a
failing transaction statement leaves the state unchanged. -/
theorem atomic_promotion_witness :
    validateStaging emptyStg sampleDb.programs sampleDb.professors ≠ []
      ∧ (runEtl sampleDb flags0 emptyStg 0 1).db.courses = sampleDb.courses
      ∧ (runEtl sampleDb flags0 emptyStg 0 1).record.status = "failure"
      ∧ runTransaction [fun _ => none] sampleDb = sampleDb := by
  have h := atomic_promotion.1 sampleDb flags0 emptyStg 0 1 (by decide)
  exact ⟨by decide, h.2.1, h.2.2.2.2.2.2.2.2.1,
    atomic_promotion.2 [fun _ => none] sampleDb rfl⟩

/-- C4: run recorder contract.  Every invocation appends exactly one
audit row (prior rows unmutated), finalized with a status that is
`success` or `failure`, the error text (`none` on success), the
timestamps and the count map; and the `etl_runs` schema can represent a
created-but-not-finalized row (`finished_at` NULL) while forcing its
status into the two-value enumeration. -/
theorem run_recorder_contract :
    (∀ (db : Database) (flags : Flags) (stg : Staging) (t1 t2 : Nat),
        (runEtl db flags stg t1 t2).db.etl_runs
          = db.etl_runs ++ [(runEtl db flags stg t1 t2).record]
        ∧ ((runEtl db flags stg t1 t2).record.status = "success"
            ∨ (runEtl db flags stg t1 t2).record.status = "failure")
        ∧ ((runEtl db flags stg t1 t2).record.status = "success" →
            (runEtl db flags stg t1 t2).record.error = none)
        ∧ (runEtl db flags stg t1 t2).record.started_at = t1
        ∧ (runEtl db flags stg t1 t2).record.finished_at = some t2
        ∧ (runEtl db flags stg t1 t2).record.counts
            = some (runCounts stg flags.updateProfessors
                (validateStaging stg db.programs db.professors)))
    ∧ (∃ r : EtlRunRow, r.finished_at = none ∧ etlRunRowOk r = true)
    ∧ (∀ r : EtlRunRow, etlRunRowOk r = true →
        r.status = "success" ∨ r.status = "failure") := by
  refine ⟨?_, ?_, ?_⟩
  · intro db flags stg t1 t2
    by_cases h : (validateStaging stg db.programs db.professors).isEmpty = true
    · simp [runEtl, h]
    · have h2 : (validateStaging stg db.programs db.professors).isEmpty = false :=
        Bool.not_eq_true _ |>.mp h
      simp [runEtl, h2]
  · exact ⟨{ run_id := 1, semester_id := some 20261, started_at := 0
             finished_at := none, status := "failure", error := none
             counts := none }, rfl, by decide⟩
  · intro r h
    unfold etlRunRowOk at h
    simp only [Bool.and_eq_true, Bool.or_eq_true, beq_iff_eq] at h
    exact h.1

/-- C4 witness: the clean sample run appends its record, succeeds, and
stores no error text. -/
theorem run_recorder_contract_witness :
    (runEtl sampleDb flags0 sampleStg 0 1).record.error = none
      ∧ (runEtl sampleDb flags0 sampleStg 0 1).db.etl_runs
          = sampleDb.etl_runs ++ [(runEtl sampleDb flags0 sampleStg 0 1).record] := by
  have h := run_recorder_contract.1 sampleDb flags0 sampleStg 0 1
  exact ⟨h.2.2.1 (by decide), h.1⟩

/-- C9: enrollment filter semantics.  Mode `any` always matches; with a
non-positive coerced capacity a section is never full — `only-full`
rejects it and every other mode accepts it regardless of enrollment; with
a positive capacity the section is full exactly when
`enrolled >= capacity`. -/
theorem enrollment_filter_semantics :
    ∀ (s : UICourseSection) (mode : String),
      sectionMatchesEnrollment s "any" = true
      ∧ (numOr0 s.capacity ≤ 0 →
          sectionMatchesEnrollment s "only-full" = false
          ∧ (mode ≠ "any" → mode ≠ "only-full" →
              sectionMatchesEnrollment s mode = true))
      ∧ (0 < numOr0 s.capacity →
          (sectionMatchesEnrollment s "only-full" = true
            ↔ numOr0 s.capacity ≤ numOr0 s.enrolled)
          ∧ (mode ≠ "any" → mode ≠ "only-full" →
              (sectionMatchesEnrollment s mode = true
                ↔ numOr0 s.enrolled < numOr0 s.capacity))) := by
  intro s mode
  refine ⟨rfl, fun h => ⟨?_, fun hm1 hm2 => ?_⟩, fun h => ⟨?_, fun hm1 hm2 => ?_⟩⟩
  · simp only [sectionMatchesEnrollment]
    rw [if_neg (by decide), if_pos (by decide), if_neg (by omega)]
  · simp only [sectionMatchesEnrollment]
    rw [if_neg (by simp [hm1]), if_neg (by simp [hm2]), if_neg (by omega)]
    rfl
  · simp only [sectionMatchesEnrollment]
    rw [if_neg (by decide), if_pos (by decide), if_pos h]
    simp only [decide_eq_true_eq, ge_iff_le]
  · simp only [sectionMatchesEnrollment]
    rw [if_neg (by simp [hm1]), if_neg (by simp [hm2]), if_pos h]
    simp only [Bool.not_eq_true', decide_eq_false_iff_not, ge_iff_le]
    omega

/-- C9 witness: the capacity-less section with 50 enrolled is not full —
`only-full` rejects it, `not-full` accepts it. -/
theorem enrollment_filter_semantics_witness :
    sectionMatchesEnrollment uiSec0 "only-full" = false
      ∧ sectionMatchesEnrollment uiSec0 "not-full" = true := by
  have h := (enrollment_filter_semantics uiSec0 "not-full").2.1 (by decide)
  exact ⟨h.1, h.2 (by decide) (by decide)⟩

/-- C10: schedule store round-trip and idempotence.  Upserting a pair
whose normalized form is already present leaves the pair list unchanged;
after upserting a pair whose normalized code and section id are both
non-empty, `hasScheduled` finds it; removing a course with no section id
drops every pair with that normalized code, after which `hasScheduled`
is false; a pair whose normalized code or section id is empty is never
added. -/
theorem schedule_store_roundtrip :
    ∀ (st : ScheduleState) (course : CourseRef) (s : UICourseSection),
      ((∃ p ∈ currentPairs st,
          normalizeCourseCode p.code = normalizeCourseCode course.code
          ∧ normalizeSectionId p.sectionId = normalizeSectionId s.sectionId) →
        upsertScheduledSection st course s = st)
      ∧ (normalizeCourseCode course.code ≠ "" →
          normalizeSectionId s.sectionId ≠ "" →
          hasScheduled (upsertScheduledSection st course s)
            (some course.code) (some s.sectionId) = true)
      ∧ (∀ codeArg : Option String,
          hasScheduled (removeScheduledSection st codeArg none) codeArg none = false
          ∧ (∀ p ∈ currentPairs (removeScheduledSection st codeArg none),
              normalizeCourseCode (codeArg.getD "") ≠ "" →
              normalizeCourseCode p.code ≠ normalizeCourseCode (codeArg.getD "")))
      ∧ ((normalizeCourseCode course.code = ""
            ∨ normalizeSectionId s.sectionId = "") →
          upsertScheduledSection st course s = st) := by
  intro st course s
  refine ⟨?_, ?_, ?_, ?_⟩
  · rintro ⟨p, hp, h1, h2⟩
    simp only [upsertScheduledSection]
    by_cases hc : (normalizeCourseCode course.code == ""
        || normalizeSectionId s.sectionId == "") = true
    · rw [if_pos hc]
    · rw [if_neg hc]
      have ha : (currentPairs st).any (fun q =>
          normalizeCourseCode q.code == normalizeCourseCode course.code
            && normalizeSectionId q.sectionId == normalizeSectionId s.sectionId)
          = true :=
        List.any_eq_true.mpr ⟨p, hp, by rw [h1, h2]; simp⟩
      rw [if_pos ha]
  · intro hco hsd
    simp only [hasScheduled, Option.getD_some]
    rw [if_neg (by simp [hco]), if_neg (by simp [hsd])]
    by_cases ha : (currentPairs st).any (fun q =>
        normalizeCourseCode q.code == normalizeCourseCode course.code
          && normalizeSectionId q.sectionId == normalizeSectionId s.sectionId)
        = true
    · have hu : upsertScheduledSection st course s = st := by
        simp only [upsertScheduledSection]
        rw [if_neg (by simp [hco, hsd]), if_pos ha]
      rw [hu]
      exact ha
    · have hu : upsertScheduledSection st course s
          = setCurrentPairs st (currentPairs st
              ++ [{ code := normalizeCourseCode course.code
                    sectionId := normalizeSectionId s.sectionId }]) := by
        simp only [upsertScheduledSection]
        rw [if_neg (by simp [hco, hsd]), if_neg ha]
      rw [hu, currentPairs_set, List.any_append]
      simp [normalizeCourseCode_idem, normalizeSectionId_idem]
  · intro codeArg
    by_cases hz : normalizeCourseCode (codeArg.getD "") = ""
    · constructor
      · simp only [hasScheduled]
        rw [if_pos (by simp [hz])]
      · intro p hp hne
        exact absurd hz hne
    · have hr : removeScheduledSection st codeArg none
          = setCurrentPairs st ((currentPairs st).filter (fun p =>
              if (normalizeCourseCode p.code
                  != normalizeCourseCode (codeArg.getD "")) = true then true
              else if (normalizeSectionId ((none : Option String).getD "")
                  == "") = true then false
              else normalizeSectionId p.sectionId
                  != normalizeSectionId ((none : Option String).getD ""))) := by
        simp only [removeScheduledSection]
        rw [if_neg (by simp [hz])]
      constructor
      · simp only [hasScheduled]
        rw [if_neg (by simp [hz]),
          if_pos (by simp [Option.getD_none, normalizeSectionId_empty])]
        rw [hr, currentPairs_set]
        rw [← Bool.not_eq_true, List.any_eq_true]
        rintro ⟨p, hp, hb⟩
        obtain ⟨hm, hcond⟩ := List.mem_filter.mp hp
        have he : normalizeCourseCode p.code
            = normalizeCourseCode (codeArg.getD "") := beq_iff_eq.mp hb
        simp [he, Option.getD_none, normalizeSectionId_empty] at hcond
      · intro p hp hne heq
        rw [hr, currentPairs_set] at hp
        obtain ⟨hm, hcond⟩ := List.mem_filter.mp hp
        simp [heq, Option.getD_none, normalizeSectionId_empty] at hcond
  · intro hor
    simp only [upsertScheduledSection]
    rw [if_pos (by rcases hor with h | h <;> simp [h])]

/-- C10 witness: at the concrete empty store, upserting the
un-normalized pair makes `hasScheduled` find it, and removal reports the
course as unscheduled. -/
theorem schedule_store_roundtrip_witness :
    normalizeCourseCode " colt-102 " ≠ ""
      ∧ normalizeSectionId " 40386 " ≠ ""
      ∧ hasScheduled (upsertScheduledSection st0 course0 uiSec0)
          (some " colt-102 ") (some " 40386 ") = true
      ∧ hasScheduled (removeScheduledSection st0 (some "COLT-102") none)
          (some "COLT-102") none = false := by
  refine ⟨by decide, by decide, ?_, ?_⟩
  · exact (schedule_store_roundtrip st0 course0 uiSec0).2.1 (by decide) (by decide)
  · exact ((schedule_store_roundtrip st0 course0 uiSec0).2.2.1 (some "COLT-102")).1

end CourseX
